import Mathlib

/-!
# Verification of the BlackHole virtual audio driver transport engine

A shallow embedding of the transport core of `BlackHole.c`:
the ring-buffer copy arithmetic of `BlackHole_DoIOOperation`, the
zero-time-stamp clock of `BlackHole_GetZeroTimeStamp`, the start/stop
reference-counting lifecycle of `BlackHole_StartIO` / `BlackHole_StopIO`,
the configuration-change protocol
(`BlackHole_PerformDeviceConfigurationChange` /
`BlackHole_AbortDeviceConfigurationChange`) and the property setters for
sample rate and clock source.

`Float64` / `Float32` values are modelled as exact rationals (`ℚ`);
conversions from `Float64` to `UInt64` are modelled as truncation
(`Int.toNat ∘ Rat.floor`), matching C's conversion on the non-negative
values that occur here.  Sample buffers are modelled at frame
granularity (every copy in the source moves whole frames: all offsets
and lengths are frame counts multiplied uniformly by the channel count).
-/

namespace BlackHole

/-! ## Build-time constants (BlackHole.c lines 234-336) -/

/-- `kLatency_Frame_Size` (BlackHole.c line 234). -/
def kLatency_Frame_Size : Nat := 0

/-- `kNumber_Of_Channels` (BlackHole.c line 237, default build). -/
def kNumber_Of_Channels : Nat := 2

/-- `kEnableVolumeControl` (BlackHole.c line 241, default build). -/
def kEnableVolumeControl : Bool := true

/-- `kDevice_RingBufferSize` (BlackHole.c line 270): the zero-time-stamp
period in frames. -/
def kDevice_RingBufferSize : Nat := 16384

/-- `kRing_Buffer_Frame_Size` (BlackHole.c line 336): the ring-buffer
capacity in frames. -/
def kRing_Buffer_Frame_Size : Nat := 65536 + kLatency_Frame_Size

/-- `UINT64_MAX`, the saturation bound of the run counters. -/
def UINT64_MAX : Nat := 2 ^ 64 - 1

/-! ## OSStatus codes (CoreAudio FourCC values) -/

/-- `kAudioHardwareBadObjectError` = `'!obj'`. -/
def kAudioHardwareBadObjectError : Int := 0x216F626A

/-- `kAudioHardwareIllegalOperationError` = `'nope'`. -/
def kAudioHardwareIllegalOperationError : Int := 0x6E6F7065

/-- `kAudioHardwareUnspecifiedError` = `'what'`: the status returned on
the write-path overload condition (BlackHole.c line 4587). -/
def kAudioHardwareUnspecifiedError : Int := 0x77686174

/-- `Float64` → `UInt64` conversion on the non-negative values used by the
driver: truncation toward zero. -/
def floatToUInt64 (x : ℚ) : Nat := (⌊x⌋ : Int).toNat

/-! ## Ring-buffer offset arithmetic (BlackHole.c lines 4529-4542) -/

/-- `ringBufferFrameLocationStart = mSampleTime % kRing_Buffer_Frame_Size`
(BlackHole.c line 4531). -/
def ringBufferFrameLocationStart (mSampleTime : Nat) : Nat :=
  mSampleTime % kRing_Buffer_Frame_Size

/-- `firstPartFrameSize` (BlackHole.c lines 4532-4542): initialised to
`kRing_Buffer_Frame_Size - start` and clamped down to the I/O buffer frame
count when that already fits. -/
def firstPartFrameSize (mSampleTime count : Nat) : Nat :=
  if kRing_Buffer_Frame_Size - ringBufferFrameLocationStart mSampleTime ≥ count then
    count
  else
    kRing_Buffer_Frame_Size - ringBufferFrameLocationStart mSampleTime

/-- `secondPartFrameSize` (BlackHole.c lines 4533-4542): `0` in the
contiguous case, the remaining frames otherwise. -/
def secondPartFrameSize (mSampleTime count : Nat) : Nat :=
  count - firstPartFrameSize mSampleTime count

/-- The ring-buffer copy-in of `BlackHole_DoIOOperation`'s write path
(BlackHole.c lines 4592-4593): frame `j` of the ring after
`memcpy(gRingBuffer + start*ch, io, first*ch*4)` followed by
`memcpy(gRingBuffer, io + first*ch, second*ch*4)`. -/
def ringWrite (mSampleTime count : Nat) (data buf : Nat → ℚ) : Nat → ℚ :=
  fun j =>
    let start := ringBufferFrameLocationStart mSampleTime
    let first := firstPartFrameSize mSampleTime count
    let second := secondPartFrameSize mSampleTime count
    if start ≤ j ∧ j < start + first then data (j - start)
    else if j < second then data (first + j)
    else buf j

/-- The ring-buffer copy-out of `BlackHole_DoIOOperation`'s read path
(BlackHole.c lines 4567-4568): frame `i` of the destination after
`memcpy(io, gRingBuffer + start*ch, first*ch*4)` followed by
`memcpy(io + first*ch, gRingBuffer, second*ch*4)`. -/
def ringRead (mSampleTime count : Nat) (buf : Nat → ℚ) : Nat → ℚ :=
  fun i =>
    let start := ringBufferFrameLocationStart mSampleTime
    let first := firstPartFrameSize mSampleTime count
    if i < first then buf (start + i) else buf (i - first)

/-! ## Transport engine state and `BlackHole_DoIOOperation`
(BlackHole.c lines 4515-4602) -/

/-- The two I/O operations the driver performs
(`kAudioServerPlugInIOOperationReadInput` / `...WriteMix`). -/
inductive IOOperation
  | readInput
  | writeMix
  deriving DecidableEq

/-- The sample-time fields of `AudioServerPlugInIOCycleInfo` used by
`BlackHole_DoIOOperation` (all `Float64` in the source). -/
structure CycleInfo where
  mInputTime : ℚ
  mOutputTime : ℚ
  mCurrentTime : ℚ
  deriving DecidableEq

/-- The mutable state touched by `BlackHole_DoIOOperation`: the ring
buffer (`gRingBuffer`, frame-indexed), the persistent statics
`lastOutputSampleTime` / `isBufferClear` (BlackHole.c lines 4545-4546) and
the control scalars `gVolume_Master_Value` / `gMute_Master_Value`. -/
structure TransportState where
  ringBuffer : Nat → ℚ
  lastOutputSampleTime : ℚ
  isBufferClear : Bool
  volume : ℚ
  mute : Bool

/-- The transport state right after a first `BlackHole_StartIO`: the ring
buffer is `calloc`-zeroed and the statics still hold their load-time
initial values (`lastOutputSampleTime = 0`, `isBufferClear = true`). -/
def initTransportState (volume : ℚ) (mute : Bool) : TransportState :=
  { ringBuffer := fun _ => 0
    lastOutputSampleTime := 0
    isBufferClear := true
    volume := volume
    mute := mute }

/-- `BlackHole_DoIOOperation` (BlackHole.c lines 4515-4602), restricted to
the two supported operations on a valid device/stream.  Returns the
status, the I/O main buffer after the call (frame-indexed) and the
updated transport state.

* Read path (lines 4549-4577): if muted, or if the last written sample
  time minus one buffer is before the cycle's input time, clear the first
  `frameSize` frames of the destination and (once) the whole ring buffer;
  otherwise copy out of the ring at
  `mInputTime.mSampleTime % kRing_Buffer_Frame_Size` and scale by the
  volume scalar.
* Write path (lines 4580-4598): if the cycle's current sample time is
  strictly past `mOutputTime + frameSize + kLatency_Frame_Size`, return
  `kAudioHardwareUnspecifiedError` (the overload condition) and change
  nothing; otherwise copy into the ring at
  `mOutputTime.mSampleTime % kRing_Buffer_Frame_Size`, set
  `lastOutputSampleTime = mOutputTime + frameSize` and mark the buffer
  dirty. -/
def doIOOperation (op : IOOperation) (frameSize : Nat) (cycle : CycleInfo)
    (ioBuffer : Nat → ℚ) (st : TransportState) :
    Int × (Nat → ℚ) × TransportState :=
  match op with
  | .readInput =>
    let mSampleTime := floatToUInt64 cycle.mInputTime
    if st.mute ∨ st.lastOutputSampleTime - (frameSize : ℚ) < cycle.mInputTime then
      (0,
       fun i => if i < frameSize then 0 else ioBuffer i,
       if st.isBufferClear then st
       else { st with
                ringBuffer := fun j => if j < kRing_Buffer_Frame_Size then 0
                                       else st.ringBuffer j
                isBufferClear := true })
    else
      (0,
       fun i =>
         if i < frameSize then
           if kEnableVolumeControl then
             st.volume * ringRead mSampleTime frameSize st.ringBuffer i
           else
             ringRead mSampleTime frameSize st.ringBuffer i
         else ioBuffer i,
       st)
  | .writeMix =>
    let mSampleTime := floatToUInt64 cycle.mOutputTime
    if cycle.mCurrentTime >
        cycle.mOutputTime + (frameSize : ℚ) + (kLatency_Frame_Size : ℚ) then
      (kAudioHardwareUnspecifiedError, ioBuffer, st)
    else
      (0, ioBuffer,
       { st with
           ringBuffer := ringWrite mSampleTime frameSize ioBuffer st.ringBuffer
           lastOutputSampleTime := cycle.mOutputTime + (frameSize : ℚ)
           isBufferClear := false })

/-! ## Clock model and `BlackHole_GetZeroTimeStamp`
(BlackHole.c lines 4387-4450) -/

/-- The mutable clock state read and written by
`BlackHole_GetZeroTimeStamp`: `gDevice_NumberTimeStamps` (`UInt64`),
`gDevice_PreviousTicks` (`Float64`), `gDevice_AnchorHostTime` (`UInt64`),
`gDevice_HostTicksPerFrame` / `gDevice_AdjustedTicksPerFrame` (`Float64`)
and `gClockSource_Value` (`UInt32`). -/
structure ClockState where
  numberTimeStamps : Nat
  previousTicks : ℚ
  anchorHostTime : Nat
  hostTicksPerFrame : ℚ
  adjustedTicksPerFrame : ℚ
  clockSourceValue : Nat
  deriving DecidableEq

/-- The ticks per ring-buffer period selected by
`BlackHole_GetZeroTimeStamp` (BlackHole.c lines 4419-4425): the adjusted
ticks-per-frame when `gClockSource_Value > 0`, the nominal one
otherwise, times `kDevice_RingBufferSize`. -/
def theAdjustedTicksPerRingBuffer (st : ClockState) : ℚ :=
  if st.clockSourceValue > 0 then
    st.adjustedTicksPerFrame * (kDevice_RingBufferSize : ℚ)
  else
    st.hostTicksPerFrame * (kDevice_RingBufferSize : ℚ)

/-- `BlackHole_GetZeroTimeStamp` (BlackHole.c lines 4387-4450) for a valid
driver/device reference, as a function of the sampled current host time
(`mach_absolute_time()`).  Returns the updated clock state together with
`(outSampleTime, outHostTime, outSeed)`.  The `(UInt64)theNextTickOffset`
cast at line 4429 and the `UInt64 = UInt64 + Float64` assignment at line
4440 truncate toward zero. -/
def getZeroTimeStamp (st : ClockState) (theCurrentHostTime : Nat) :
    ClockState × ℚ × Nat × Nat :=
  let theNextTickOffset := st.previousTicks + theAdjustedTicksPerRingBuffer st
  let theNextHostTime := st.anchorHostTime + floatToUInt64 theNextTickOffset
  let st' :=
    if theNextHostTime ≤ theCurrentHostTime then
      { st with
          numberTimeStamps := st.numberTimeStamps + 1
          previousTicks := theNextTickOffset }
    else st
  (st',
   ((st'.numberTimeStamps * kDevice_RingBufferSize : Nat) : ℚ),
   floatToUInt64 ((st'.anchorHostTime : ℚ) + st'.previousTicks),
   1)

/-- A sequence of `BlackHole_GetZeroTimeStamp` calls at the given host
times: the list of (state after the call, outSampleTime, outHostTime). -/
def runClock : ClockState → List Nat → List (ClockState × ℚ × Nat)
  | _, [] => []
  | st, t :: ts =>
    let r := getZeroTimeStamp st t
    (r.1, r.2.1, r.2.2.1) :: runClock r.1 ts

/-! ## IO lifecycle: `BlackHole_StartIO` / `BlackHole_StopIO`
(BlackHole.c lines 4304-4385) -/

/-- The two logical devices (`kObjectID_Device`, `kObjectID_Device2`). -/
inductive DeviceID
  | device1
  | device2
  deriving DecidableEq

/-- The lifecycle state touched by `BlackHole_StartIO` /
`BlackHole_StopIO`: the two run counters (`gDevice_IOIsRunning`,
`gDevice2_IOIsRunning`, both `UInt64`), whether `gRingBuffer` is non-NULL,
and the clock fields reset on first start. -/
structure LifecycleState where
  device1Running : Nat
  device2Running : Nat
  ringBufferAllocated : Bool
  numberTimeStamps : Nat
  anchorSampleTime : ℚ
  anchorHostTime : Nat
  previousTicks : ℚ
  deriving DecidableEq

/-- The lifecycle state at plug-in load: both counters 0, no buffer. -/
def initLifecycleState : LifecycleState :=
  { device1Running := 0
    device2Running := 0
    ringBufferAllocated := false
    numberTimeStamps := 0
    anchorSampleTime := 0
    anchorHostTime := 0
    previousTicks := 0 }

/-- `BlackHole_StartIO` (BlackHole.c lines 4304-4348) for a valid
driver/device reference.  `now` is `mach_absolute_time()`; `allocOK`
tells whether the `calloc` at line 4339 succeeds.  The overflow check
(counter already at `UINT64_MAX`) happens before any mutation and yields
`kAudioHardwareIllegalOperationError`.  Note the source never inspects
the `calloc` result: the status is 0 whether or not allocation
succeeded. -/
def ioStart (dev : DeviceID) (now : Nat) (allocOK : Bool)
    (st : LifecycleState) : Int × LifecycleState :=
  if dev = .device1 ∧ st.device1Running = UINT64_MAX then
    (kAudioHardwareIllegalOperationError, st)
  else if dev = .device2 ∧ st.device2Running = UINT64_MAX then
    (kAudioHardwareIllegalOperationError, st)
  else
    let st :=
      match dev with
      | .device1 => { st with device1Running := st.device1Running + 1 }
      | .device2 => { st with device2Running := st.device2Running + 1 }
    if (st.device1Running ≠ 0 ∨ st.device2Running ≠ 0) ∧
        st.ringBufferAllocated = false then
      (0, { st with
              numberTimeStamps := 0
              anchorSampleTime := 0
              anchorHostTime := now
              previousTicks := 0
              ringBufferAllocated := allocOK })
    else
      (0, st)

/-- `BlackHole_StopIO` (BlackHole.c lines 4350-4385) for a valid
driver/device reference.  The underflow check (counter already 0) happens
before any mutation and yields `kAudioHardwareIllegalOperationError`;
when the decrement leaves both counters at 0 the ring buffer is freed. -/
def ioStop (dev : DeviceID) (st : LifecycleState) : Int × LifecycleState :=
  if dev = .device1 ∧ st.device1Running = 0 then
    (kAudioHardwareIllegalOperationError, st)
  else if dev = .device2 ∧ st.device2Running = 0 then
    (kAudioHardwareIllegalOperationError, st)
  else
    let st :=
      match dev with
      | .device1 => { st with device1Running := st.device1Running - 1 }
      | .device2 => { st with device2Running := st.device2Running - 1 }
    if st.device1Running = 0 ∧ st.device2Running = 0 ∧
        st.ringBufferAllocated = true then
      (0, { st with ringBufferAllocated := false })
    else
      (0, st)

/-- A start or stop call in an interleaving. -/
inductive IOEvent
  | start (dev : DeviceID) (now : Nat) (allocOK : Bool)
  | stop (dev : DeviceID)
  deriving DecidableEq

/-- Whether the `calloc` oracle of a start event reports success (a stop
event trivially counts as success). -/
def eventAllocOK : IOEvent → Bool
  | .start _ _ a => a
  | .stop _ => true

/-- One lifecycle transition (the state part of `ioStart` / `ioStop`). -/
def ioStep (st : LifecycleState) : IOEvent → LifecycleState
  | .start dev now a => (ioStart dev now a st).2
  | .stop dev => (ioStop dev st).2

/-- Run an interleaving of start/stop events. -/
def runLifecycle (st : LifecycleState) (evs : List IOEvent) : LifecycleState :=
  evs.foldl ioStep st

/-! ## Sample-rate whitelist and pitch arithmetic -/

/-- `kDevice_SampleRates` (BlackHole.c lines 323-327, default build). -/
def kDevice_SampleRates : List ℚ :=
  [8000, 16000, 24000, 44100, 48000, 88200, 96000,
   176400, 192000, 352800, 384000, 705600, 768000]

/-- `is_valid_sample_rate` (BlackHole.c lines 599-610): linear scan of
`kDevice_SampleRates` for an exact match. -/
def is_valid_sample_rate (sample_rate : ℚ) : Bool :=
  kDevice_SampleRates.any (fun r => sample_rate = r)

/-- The pitch-adjusted ticks-per-frame formula
`gDevice_HostTicksPerFrame - gDevice_HostTicksPerFrame/100.0 *
2.0*(gPitch_Adjust - 0.5)` (BlackHole.c lines 929 and 4243). -/
def adjustedTicksPerFrame (ticksPerFrame pitch : ℚ) : ℚ :=
  ticksPerFrame - ticksPerFrame / 100 * (2 * (pitch - 1 / 2))

/-! ## Configuration changes (BlackHole.c lines 873-960) and the
sample-rate / clock-source setters (lines 2877-2895, 4258-4291) -/

/-- `ChangeAction_SetSampleRate` / `..._EnablePitchControl` /
`..._DisablePitchControl` (BlackHole.c lines 128-130). -/
inductive ChangeAction
  | setSampleRate
  | enablePitchControl
  | disablePitchControl
  deriving DecidableEq

/-- The device state touched by the configuration-change machinery:
`gDevice_SampleRate`, `gDevice_RequestedSampleRate`,
`gDevice_HostTicksPerFrame`, `gDevice_AdjustedTicksPerFrame`,
`gPitch_Adjust` and `gPitch_Adjust_Enabled`. -/
structure ConfigState where
  sampleRate : ℚ
  requestedSampleRate : ℚ
  hostTicksPerFrame : ℚ
  adjustedTicks : ℚ
  pitchAdjust : ℚ
  pitchAdjustEnabled : Bool
  deriving DecidableEq

/-- `BlackHole_PerformDeviceConfigurationChange` (BlackHole.c lines
873-940) for a valid driver/device reference.  `theHostClockFrequency`
stands for the value computed from `mach_timebase_info` at lines 924-927.
For `ChangeAction_SetSampleRate` the pending `gDevice_RequestedSampleRate`
is validated, installed into `gDevice_SampleRate`, and the two
ticks-per-frame values are recomputed; the pitch actions just flip
`gPitch_Adjust_Enabled`. -/
def performDeviceConfigurationChange (action : ChangeAction)
    (theHostClockFrequency : ℚ) (st : ConfigState) : Int × ConfigState :=
  match action with
  | .enablePitchControl => (0, { st with pitchAdjustEnabled := true })
  | .disablePitchControl => (0, { st with pitchAdjustEnabled := false })
  | .setSampleRate =>
    let newSampleRate := st.requestedSampleRate
    if is_valid_sample_rate newSampleRate = false then
      (kAudioHardwareBadObjectError, st)
    else
      let ticks := theHostClockFrequency / newSampleRate
      (0, { st with
              sampleRate := newSampleRate
              hostTicksPerFrame := ticks
              adjustedTicks := adjustedTicksPerFrame ticks st.pitchAdjust })

/-- `BlackHole_AbortDeviceConfigurationChange` (BlackHole.c lines
942-960) for a valid driver/device reference: no state mutation, returns
0. -/
def abortDeviceConfigurationChange (action : ChangeAction)
    (st : ConfigState) : Int × ConfigState :=
  (0, st)

/-- `kAudioDevicePropertyNominalSampleRate` case of
`BlackHole_SetDevicePropertyData` (BlackHole.c lines 2877-2895): an
invalid rate fails with `kAudioHardwareIllegalOperationError` before any
mutation; a valid rate is stored as `gDevice_RequestedSampleRate` and a
`ChangeAction_SetSampleRate` configuration change is dispatched exactly
when the new rate differs from the current one.  Returns the status, the
updated state and the queued request (if any). -/
def setNominalSampleRate (newRate : ℚ) (st : ConfigState) :
    Int × ConfigState × Option ChangeAction :=
  if is_valid_sample_rate newRate = false then
    (kAudioHardwareIllegalOperationError, st, none)
  else
    let theOldSampleRate := st.sampleRate
    let st' := { st with requestedSampleRate := newRate }
    if newRate ≠ theOldSampleRate then
      (0, st', some .setSampleRate)
    else
      (0, st', none)

/-- `kClockSource_NumberItems` (BlackHole.c line 286). -/
def kClockSource_NumberItems : Nat := 2

/-- `kAudioSelectorControlPropertyCurrentItem` case of
`BlackHole_SetControlPropertyData` for `kObjectID_ClockSource`
(BlackHole.c lines 4258-4291): an out-of-range index is clamped to
`kClockSource_NumberItems - 1`, and when the (clamped) value differs from
`gClockSource_Value` it is stored and an enable/disable pitch-control
configuration change is dispatched.  Returns the status, the new
`gClockSource_Value` and the queued request (if any). -/
def setClockSourceValue (theNewSource current : Nat) :
    Int × Nat × Option ChangeAction :=
  let s := if theNewSource ≥ kClockSource_NumberItems then
             kClockSource_NumberItems - 1
           else theNewSource
  if current ≠ s then
    (0, s, some (if s > 0 then .enablePitchControl else .disablePitchControl))
  else
    (0, current, none)

/-! ## Theorems -/

/-- Helper: the ring-buffer copy-out after a copy-in at the same sample
time recovers the written frames (shared by several results below). -/
theorem ringRead_ringWrite (s count : Nat)
    (hcount : count ≤ kRing_Buffer_Frame_Size)
    (data buf : Nat → ℚ) (i : Nat) (hi : i < count) :
    ringRead s count (ringWrite s count data buf) i = data i := by
  have hC : 0 < kRing_Buffer_Frame_Size := by
    norm_num [kRing_Buffer_Frame_Size, kLatency_Frame_Size]
  have hstart : s % kRing_Buffer_Frame_Size < kRing_Buffer_Frame_Size :=
    Nat.mod_lt _ hC
  simp only [ringRead, ringWrite, firstPartFrameSize, secondPartFrameSize,
    ringBufferFrameLocationStart]
  split_ifs <;> first
    | (congr 1; omega)
    | omega

/-- C1: Ring-buffer wrap round-trip.  For every frame count
`count ≤ kRing_Buffer_Frame_Size` and every absolute sample time `s`,
writing `count` frames at sample time `s` and then reading `count` frames
at the same sample time returns exactly the frames written, including the
wrapped case; moreover each operation computes
`start = s % kRing_Buffer_Frame_Size` and performs a single contiguous
copy (`secondPartFrameSize = 0`) exactly when
`kRing_Buffer_Frame_Size - start ≥ count`, splitting into a tail part of
`kRing_Buffer_Frame_Size - start` frames and a head part of the rest
otherwise. -/
theorem ring_wrap_roundtrip (s count : Nat)
    (hcount : count ≤ kRing_Buffer_Frame_Size)
    (data buf : Nat → ℚ) (i : Nat) (hi : i < count) :
    ringRead s count (ringWrite s count data buf) i = data i ∧
    (kRing_Buffer_Frame_Size - s % kRing_Buffer_Frame_Size ≥ count →
      firstPartFrameSize s count = count ∧
      secondPartFrameSize s count = 0) ∧
    (kRing_Buffer_Frame_Size - s % kRing_Buffer_Frame_Size < count →
      firstPartFrameSize s count =
        kRing_Buffer_Frame_Size - s % kRing_Buffer_Frame_Size ∧
      secondPartFrameSize s count =
        count - (kRing_Buffer_Frame_Size - s % kRing_Buffer_Frame_Size)) := by
  have hC : 0 < kRing_Buffer_Frame_Size := by
    norm_num [kRing_Buffer_Frame_Size, kLatency_Frame_Size]
  have hstart : s % kRing_Buffer_Frame_Size < kRing_Buffer_Frame_Size :=
    Nat.mod_lt _ hC
  refine ⟨ringRead_ringWrite s count hcount data buf i hi, ?_, ?_⟩
  · intro h
    simp only [firstPartFrameSize, secondPartFrameSize,
      ringBufferFrameLocationStart]
    split_ifs <;> omega
  · intro h
    simp only [firstPartFrameSize, secondPartFrameSize,
      ringBufferFrameLocationStart]
    split_ifs <;> omega

/-- Witness for C1 at a wrapped position: `s = 65530`, `count = 10`,
`i = 8` (the copy splits into 6 tail frames and 4 head frames). -/
theorem ring_wrap_roundtrip_witness :
    10 ≤ kRing_Buffer_Frame_Size ∧ 8 < 10 ∧
    ringRead 65530 10
      (ringWrite 65530 10 (fun n => (n : ℚ)) (fun _ => 0)) 8 = ((8 : Nat) : ℚ) := by
  have h := ring_wrap_roundtrip 65530 10
    (by norm_num [kRing_Buffer_Frame_Size, kLatency_Frame_Size])
    (fun n => (n : ℚ)) (fun _ => 0) 8 (by norm_num)
  exact ⟨by norm_num [kRing_Buffer_Frame_Size, kLatency_Frame_Size],
    by norm_num, h.1⟩

/-- C5: Overload detection and atomicity.  A write cycle whose declared
current sample time is strictly past
`mOutputTime + frameSize + kLatency_Frame_Size` returns
`kAudioHardwareUnspecifiedError` (the overload status) and leaves the
transport state — ring buffer contents and `lastOutputSampleTime`
watermark — unchanged; otherwise it copies the frames into the ring
buffer and sets the watermark to `mOutputTime + frameSize`. -/
theorem write_overload_atomicity (frameSize : Nat) (cycle : CycleInfo)
    (io : Nat → ℚ) (st : TransportState) :
    (cycle.mCurrentTime >
        cycle.mOutputTime + (frameSize : ℚ) + (kLatency_Frame_Size : ℚ) →
      doIOOperation .writeMix frameSize cycle io st =
        (kAudioHardwareUnspecifiedError, io, st)) ∧
    (¬ (cycle.mCurrentTime >
        cycle.mOutputTime + (frameSize : ℚ) + (kLatency_Frame_Size : ℚ)) →
      doIOOperation .writeMix frameSize cycle io st =
        (0, io,
         { st with
             ringBuffer := ringWrite (floatToUInt64 cycle.mOutputTime)
               frameSize io st.ringBuffer
             lastOutputSampleTime := cycle.mOutputTime + (frameSize : ℚ)
             isBufferClear := false })) := by
  constructor <;> intro h <;> simp [doIOOperation, h]

/-- Witness for C5: a cycle at output time 0 with 512 frames, zero
latency and declared current time 1000 overloads and leaves the state
untouched. -/
theorem write_overload_atomicity_witness :
    ((⟨0, 0, 1000⟩ : CycleInfo).mCurrentTime >
      (⟨0, 0, 1000⟩ : CycleInfo).mOutputTime + ((512 : Nat) : ℚ) +
        (kLatency_Frame_Size : ℚ)) ∧
    doIOOperation .writeMix 512 ⟨0, 0, 1000⟩ (fun _ => 1)
        (initTransportState 1 false) =
      (kAudioHardwareUnspecifiedError, fun _ => 1, initTransportState 1 false) := by
  have hc : (⟨0, 0, 1000⟩ : CycleInfo).mCurrentTime >
      (⟨0, 0, 1000⟩ : CycleInfo).mOutputTime + ((512 : Nat) : ℚ) +
        (kLatency_Frame_Size : ℚ) := by
    norm_num [kLatency_Frame_Size]
  exact ⟨hc,
    (write_overload_atomicity 512 ⟨0, 0, 1000⟩ (fun _ => 1)
      (initTransportState 1 false)).1 hc⟩

/-- C2: End-to-end transport.  Starting from a freshly started device
(zeroed ring buffer, load-time statics), a write cycle of 512 frames at
output sample time 0 whose current time does not trip the overload check,
followed by a read cycle of 512 frames at input sample time 0, produces an
output buffer equal to the input samples scaled by the current volume
scalar when unmuted, and all zeros when muted. -/
theorem transport_end_to_end (vol : ℚ) (mute : Bool) (input out0 : Nat → ℚ)
    (cur : ℚ) (i : Nat) (hcur : cur ≤ 512) (hi : i < 512) :
    (mute = false →
      (doIOOperation .readInput 512 ⟨0, 0, cur⟩ out0
        (doIOOperation .writeMix 512 ⟨0, 0, cur⟩ input
          (initTransportState vol mute)).2.2).2.1 i = vol * input i) ∧
    (mute = true →
      (doIOOperation .readInput 512 ⟨0, 0, cur⟩ out0
        (doIOOperation .writeMix 512 ⟨0, 0, cur⟩ input
          (initTransportState vol mute)).2.2).2.1 i = 0) := by
  have hw : (doIOOperation .writeMix 512 ⟨0, 0, cur⟩ input
      (initTransportState vol mute)).2.2 =
      { ringBuffer := ringWrite 0 512 input (fun _ => 0)
        lastOutputSampleTime := 512
        isBufferClear := false
        volume := vol
        mute := mute } := by
    simp only [doIOOperation, initTransportState]
    split
    · rename_i hov
      exfalso
      simp only [kLatency_Frame_Size] at hov
      push_cast at hov
      linarith
    · simp [floatToUInt64]
  rw [hw]
  cases mute with
  | true =>
    refine ⟨by intro h; exact absurd h (by simp), fun _ => ?_⟩
    simp only [doIOOperation]
    rw [if_pos (by norm_num)]
    simp [hi]
  | false =>
    refine ⟨fun _ => ?_, by intro h; exact absurd h (by simp)⟩
    simp only [doIOOperation]
    rw [if_neg (by norm_num)]
    simp only [hi, if_pos, kEnableVolumeControl, if_true]
    have h0 : floatToUInt64 (⟨0, 0, cur⟩ : CycleInfo).mInputTime = 0 := by
      simp [floatToUInt64]
    rw [h0, ringRead_ringWrite 0 512
      (by norm_num [kRing_Buffer_Frame_Size, kLatency_Frame_Size])
      input (fun _ => 0) i hi]

/-- Witness for C2: volume `1/2`, input frame `i ↦ i`, read back frame 3
after the write gives `3/2`; with mute set it gives 0. -/
theorem transport_end_to_end_witness :
    ((0 : ℚ) ≤ 512) ∧ (3 < 512) ∧
    (doIOOperation .readInput 512 ⟨0, 0, 0⟩ (fun _ => 7)
      (doIOOperation .writeMix 512 ⟨0, 0, 0⟩ (fun n => (n : ℚ))
        (initTransportState (1 / 2) false)).2.2).2.1 3 =
      (1 / 2 : ℚ) * ((3 : Nat) : ℚ) ∧
    (doIOOperation .readInput 512 ⟨0, 0, 0⟩ (fun _ => 7)
      (doIOOperation .writeMix 512 ⟨0, 0, 0⟩ (fun n => (n : ℚ))
        (initTransportState (1 / 2) true)).2.2).2.1 3 = 0 := by
  refine ⟨by norm_num, by norm_num, ?_, ?_⟩
  · exact (transport_end_to_end (1 / 2) false (fun n => (n : ℚ)) (fun _ => 7)
      0 3 (by norm_num) (by norm_num)).1 rfl
  · exact (transport_end_to_end (1 / 2) true (fun n => (n : ℚ)) (fun _ => 7)
      0 3 (by norm_num) (by norm_num)).2 rfl

/-! ### Clock lemmas -/

/-- The `outSampleTime` returned by `BlackHole_GetZeroTimeStamp` as a
function of the post-call state (BlackHole.c line 4439). -/
def outSampleTime (st : ClockState) : ℚ :=
  ((st.numberTimeStamps * kDevice_RingBufferSize : Nat) : ℚ)

/-- The `outHostTime` returned by `BlackHole_GetZeroTimeStamp` as a
function of the post-call state (BlackHole.c line 4440). -/
def outHostTime (st : ClockState) : Nat :=
  floatToUInt64 ((st.anchorHostTime : ℚ) + st.previousTicks)

theorem theAdjustedTicksPerRingBuffer_nonneg (st : ClockState)
    (h1 : 0 ≤ st.hostTicksPerFrame) (h2 : 0 ≤ st.adjustedTicksPerFrame) :
    0 ≤ theAdjustedTicksPerRingBuffer st := by
  unfold theAdjustedTicksPerRingBuffer
  split_ifs
  · exact mul_nonneg h2 (by positivity)
  · exact mul_nonneg h1 (by positivity)

/-- The post-call state of `BlackHole_GetZeroTimeStamp`: unchanged unless
the current host time has reached the (truncated) next boundary, in which
case the sequence counter and `previousTicks` advance by one period. -/
theorem getZeroTimeStamp_fst (st : ClockState) (t : Nat) :
    (getZeroTimeStamp st t).1 =
      if st.anchorHostTime +
          floatToUInt64 (st.previousTicks + theAdjustedTicksPerRingBuffer st) ≤ t then
        { st with
            numberTimeStamps := st.numberTimeStamps + 1
            previousTicks := st.previousTicks + theAdjustedTicksPerRingBuffer st }
      else st :=
  rfl

theorem runClock_cons (st : ClockState) (t : Nat) (ts : List Nat) :
    runClock st (t :: ts) =
      ((getZeroTimeStamp st t).1, outSampleTime (getZeroTimeStamp st t).1,
        outHostTime (getZeroTimeStamp st t).1) ::
      runClock (getZeroTimeStamp st t).1 ts :=
  rfl

theorem outSampleTime_mono {a b : ClockState}
    (h : a.numberTimeStamps ≤ b.numberTimeStamps) :
    outSampleTime a ≤ outSampleTime b := by
  unfold outSampleTime
  exact_mod_cast Nat.mul_le_mul_right _ h

theorem outHostTime_mono {a b : ClockState}
    (hanchor : a.anchorHostTime = b.anchorHostTime)
    (h : a.previousTicks ≤ b.previousTicks) :
    outHostTime a ≤ outHostTime b := by
  unfold outHostTime floatToUInt64
  apply Int.toNat_le_toNat
  apply Int.floor_le_floor
  rw [hanchor]
  exact add_le_add_left h _

/-- One `getZeroTimeStamp` call keeps the anchor and rate fields and can
only advance the counter and `previousTicks`. -/
theorem getZeroTimeStamp_step_mono (st : ClockState) (t : Nat)
    (h1 : 0 ≤ st.hostTicksPerFrame) (h2 : 0 ≤ st.adjustedTicksPerFrame) :
    (getZeroTimeStamp st t).1.anchorHostTime = st.anchorHostTime ∧
    (getZeroTimeStamp st t).1.hostTicksPerFrame = st.hostTicksPerFrame ∧
    (getZeroTimeStamp st t).1.adjustedTicksPerFrame = st.adjustedTicksPerFrame ∧
    st.numberTimeStamps ≤ (getZeroTimeStamp st t).1.numberTimeStamps ∧
    st.previousTicks ≤ (getZeroTimeStamp st t).1.previousTicks := by
  rw [getZeroTimeStamp_fst]
  split_ifs
  · refine ⟨rfl, rfl, rfl, Nat.le_succ _, ?_⟩
    have := theAdjustedTicksPerRingBuffer_nonneg st h1 h2
    simp only
    linarith
  · exact ⟨rfl, rfl, rfl, le_refl _, le_refl _⟩

/-- Chain of non-decreasing outputs along a run, with the pre-state's
virtual output prepended. -/
theorem runClock_chain (st : ClockState) (ts : List Nat)
    (h1 : 0 ≤ st.hostTicksPerFrame) (h2 : 0 ≤ st.adjustedTicksPerFrame) :
    ((st, outSampleTime st, outHostTime st) :: runClock st ts).Chain'
      (fun a b => a.2.1 ≤ b.2.1 ∧ a.2.2 ≤ b.2.2) := by
  induction ts generalizing st with
  | nil => simp [runClock]
  | cons t ts ih =>
    rw [runClock_cons, List.chain'_cons]
    obtain ⟨ha, hh, hj, hn, hp⟩ := getZeroTimeStamp_step_mono st t h1 h2
    exact ⟨⟨outSampleTime_mono hn, outHostTime_mono ha.symm hp⟩,
      ih (getZeroTimeStamp st t).1 (hh ▸ h1) (hj ▸ h2)⟩

/-- Every trace element's returned sample time is the post-state counter
times the ring-buffer period. -/
theorem runClock_sampleTime (st : ClockState) (ts : List Nat) :
    ∀ r ∈ runClock st ts, r.2.1 = outSampleTime r.1 := by
  induction ts generalizing st with
  | nil => simp [runClock]
  | cons t ts ih =>
    rw [runClock_cons]
    intro r hr
    rcases List.mem_cons.1 hr with h | h
    · subst h; rfl
    · exact ih _ r h

/-- C3 (amended): Zero-time-stamp monotonicity and formula.  Along any
sequence of `BlackHole_GetZeroTimeStamp` calls with non-decreasing host
times, the returned `(sampleTime, hostTime)` pairs are non-decreasing in
both components and `sampleTime` always equals the internal sequence
counter times `kDevice_RingBufferSize`; on each call the counter and
`previousTicks` advance by exactly one period precisely when the current
host time has reached or passed
`anchor + ⌊previousTicks + ticksPerPeriod⌋` — the tick offset truncated
to whole host ticks by the source's `(UInt64)` cast, not the exact
rational boundary `anchor + previousTicks + ticksPerPeriod` — where
`ticksPerPeriod` uses the adjusted ticks-per-frame exactly when the
clock-source selector is in the adjustable state. -/
theorem getZeroTimeStamp_spec (st : ClockState) (ts : List Nat)
    (h1 : 0 ≤ st.hostTicksPerFrame) (h2 : 0 ≤ st.adjustedTicksPerFrame)
    (hts : ts.Chain' (· ≤ ·)) :
    ((runClock st ts).map (fun r => (r.2.1, r.2.2))).Chain'
      (fun a b => a.1 ≤ b.1 ∧ a.2 ≤ b.2) ∧
    (∀ r ∈ runClock st ts,
      r.2.1 = ((r.1.numberTimeStamps * kDevice_RingBufferSize : Nat) : ℚ)) ∧
    (∀ u : ClockState, ∀ t : Nat,
      theAdjustedTicksPerRingBuffer u =
        (if u.clockSourceValue > 0 then u.adjustedTicksPerFrame
         else u.hostTicksPerFrame) * (kDevice_RingBufferSize : ℚ) ∧
      (u.anchorHostTime +
          floatToUInt64 (u.previousTicks + theAdjustedTicksPerRingBuffer u) ≤ t →
        (getZeroTimeStamp u t).1 =
          { u with
              numberTimeStamps := u.numberTimeStamps + 1
              previousTicks :=
                u.previousTicks + theAdjustedTicksPerRingBuffer u }) ∧
      (¬ (u.anchorHostTime +
          floatToUInt64 (u.previousTicks + theAdjustedTicksPerRingBuffer u) ≤ t) →
        (getZeroTimeStamp u t).1 = u)) := by
  refine ⟨?_, runClock_sampleTime st ts, ?_⟩
  · rw [List.chain'_map]
    exact ((runClock_chain st ts h1 h2).tail).imp (fun _ _ hab => hab)
  · intro u t
    refine ⟨?_, ?_, ?_⟩
    · unfold theAdjustedTicksPerRingBuffer
      split_ifs <;> rfl
    · intro h
      rw [getZeroTimeStamp_fst, if_pos h]
    · intro h
      rw [getZeroTimeStamp_fst, if_neg h]

/-- Witness for C3 (amended): ticks-per-frame 1 and host times
`[0, 16384]`: the first call does not advance, the second advances at the
boundary, and the outputs are non-decreasing. -/
theorem getZeroTimeStamp_spec_witness :
    (0 : ℚ) ≤ (⟨0, 0, 0, 1, 1, 0⟩ : ClockState).hostTicksPerFrame ∧
    ([0, 16384] : List Nat).Chain' (· ≤ ·) ∧
    ((runClock ⟨0, 0, 0, 1, 1, 0⟩ [0, 16384]).map
      (fun r => (r.2.1, r.2.2))).Chain' (fun a b => a.1 ≤ b.1 ∧ a.2 ≤ b.2) := by
  have hchain : ([0, 16384] : List Nat).Chain' (· ≤ ·) :=
    List.chain'_cons.mpr ⟨by norm_num, List.chain'_singleton _⟩
  refine ⟨by norm_num, hchain, ?_⟩
  exact (getZeroTimeStamp_spec ⟨0, 0, 0, 1, 1, 0⟩ [0, 16384]
    (by norm_num) (by norm_num) hchain).1

/-- Counterexample to C3 as literally stated: with a 24 MHz host timer
and nominal rate 44100 (`hostTicksPerFrame = 80000/147`, fixed clock
source), from the anchored state a call at host time 8916462 — the
truncated boundary `⌊16384 × 80000/147⌋` — does advance the sequence
counter, even though the exact boundary
`anchor + previousTicks + ticksPerPeriod = 1310720000/147 ≈ 8916462.585`
has not yet been reached.  The advance condition therefore uses the
truncated boundary, not the exact one. -/
theorem getZeroTimeStamp_boundary_counterexample :
    (0 : ℚ) < (⟨0, 0, 0, 80000 / 147, 80000 / 147, 0⟩ : ClockState).hostTicksPerFrame ∧
    (getZeroTimeStamp ⟨0, 0, 0, 80000 / 147, 80000 / 147, 0⟩
      8916462).1.numberTimeStamps = 0 + 1 ∧
    ¬ ((((⟨0, 0, 0, 80000 / 147, 80000 / 147, 0⟩ : ClockState).anchorHostTime : ℚ) +
        (0 : ℚ) +
        theAdjustedTicksPerRingBuffer ⟨0, 0, 0, 80000 / 147, 80000 / 147, 0⟩) ≤
       (8916462 : ℚ)) := by
  have hper : theAdjustedTicksPerRingBuffer ⟨0, 0, 0, 80000 / 147, 80000 / 147, 0⟩ =
      1310720000 / 147 := by
    norm_num [theAdjustedTicksPerRingBuffer, kDevice_RingBufferSize]
  have hfloor : (⌊(0 : ℚ) + 1310720000 / 147⌋ : ℤ) = 8916462 := by
    rw [Int.floor_eq_iff]
    constructor <;> norm_num
  refine ⟨by norm_num, ?_, ?_⟩
  · rw [getZeroTimeStamp_fst]
    rw [if_pos]
    simp only [hper, floatToUInt64, hfloor]
    norm_num
  · simp only [hper]
    norm_num

/-! ### Lifecycle lemmas -/

/-- One start/stop transition with a successful allocator preserves the
buffer-existence invariant: the ring buffer is allocated iff some run
counter is positive. -/
theorem ioStep_invariant (st : LifecycleState) (e : IOEvent)
    (ha : eventAllocOK e = true)
    (h : st.ringBufferAllocated = true ↔
      (0 < st.device1Running ∨ 0 < st.device2Running)) :
    (ioStep st e).ringBufferAllocated = true ↔
      (0 < (ioStep st e).device1Running ∨ 0 < (ioStep st e).device2Running) := by
  obtain ⟨d1, d2, rb, nts, ast, aht, pt⟩ := st
  cases e with
  | start dev now a =>
    simp only [eventAllocOK] at ha
    subst ha
    cases dev <;>
      simp only [ioStep, ioStart] <;>
      split_ifs <;>
      simp_all <;>
      omega
  | stop dev =>
    cases dev <;>
      simp only [ioStep, ioStop] <;>
      split_ifs <;>
      simp_all <;>
      omega

/-- The buffer-existence invariant holds along any interleaving with a
successful allocator. -/
theorem runLifecycle_invariant (st : LifecycleState) (evs : List IOEvent)
    (ha : ∀ e ∈ evs, eventAllocOK e = true)
    (h : st.ringBufferAllocated = true ↔
      (0 < st.device1Running ∨ 0 < st.device2Running)) :
    (runLifecycle st evs).ringBufferAllocated = true ↔
      (0 < (runLifecycle st evs).device1Running ∨
       0 < (runLifecycle st evs).device2Running) := by
  induction evs generalizing st with
  | nil => exact h
  | cons e evs ih =>
    exact ih (ioStep st e)
      (fun x hx => ha x (List.mem_cons_of_mem e hx))
      (ioStep_invariant st e (ha e (List.mem_cons_self e evs)) h)

/-- C4: Reference-counting lifecycle.  For every interleaving of
start/stop events on the two logical devices from the initial state (both
counters 0, no buffer) in which every allocation succeeds, the ring
buffer is allocated iff at least one run counter is positive; a stop on a
device whose counter is 0 returns `kAudioHardwareIllegalOperationError`
(the underflow error) leaving the state unchanged, and a start on a
device whose counter is at `UINT64_MAX` returns the same illegal-operation
error (the overflow error) leaving the state unchanged. -/
theorem lifecycle_refcount (evs : List IOEvent)
    (ha : ∀ e ∈ evs, eventAllocOK e = true)
    (u : LifecycleState) (now : Nat) (aOK : Bool) :
    ((runLifecycle initLifecycleState evs).ringBufferAllocated = true ↔
      (0 < (runLifecycle initLifecycleState evs).device1Running ∨
       0 < (runLifecycle initLifecycleState evs).device2Running)) ∧
    (u.device1Running = 0 →
      ioStop .device1 u = (kAudioHardwareIllegalOperationError, u)) ∧
    (u.device2Running = 0 →
      ioStop .device2 u = (kAudioHardwareIllegalOperationError, u)) ∧
    (u.device1Running = UINT64_MAX →
      ioStart .device1 now aOK u = (kAudioHardwareIllegalOperationError, u)) ∧
    (u.device2Running = UINT64_MAX →
      ioStart .device2 now aOK u = (kAudioHardwareIllegalOperationError, u)) := by
  refine ⟨runLifecycle_invariant initLifecycleState evs ha (by simp [initLifecycleState]),
    ?_, ?_, ?_, ?_⟩
  · intro h
    unfold ioStop
    rw [if_pos ⟨rfl, h⟩]
  · intro h
    unfold ioStop
    rw [if_neg (by simp), if_pos ⟨rfl, h⟩]
  · intro h
    unfold ioStart
    rw [if_pos ⟨rfl, h⟩]
  · intro h
    unfold ioStart
    rw [if_neg (by simp), if_pos ⟨rfl, h⟩]

/-- Witness for C4: the interleaving start(1), stop(1) ends with no
buffer, and stopping the never-started initial state is an illegal
operation that changes nothing. -/
theorem lifecycle_refcount_witness :
    ((runLifecycle initLifecycleState
        [.start .device1 5 true, .stop .device1]).ringBufferAllocated = true ↔
      (0 < (runLifecycle initLifecycleState
        [.start .device1 5 true, .stop .device1]).device1Running ∨
       0 < (runLifecycle initLifecycleState
        [.start .device1 5 true, .stop .device1]).device2Running)) ∧
    initLifecycleState.device1Running = 0 ∧
    ioStop .device1 initLifecycleState =
      (kAudioHardwareIllegalOperationError, initLifecycleState) := by
  have ha : ∀ e ∈ ([.start .device1 5 true, .stop .device1] : List IOEvent),
      eventAllocOK e = true := by
    intro e he
    rcases List.mem_cons.1 he with h | h
    · subst h; rfl
    · rcases List.mem_cons.1 h with h2 | h2
      · subst h2; rfl
      · exact absurd h2 (List.not_mem_nil e)
  have h := lifecycle_refcount [.start .device1 5 true, .stop .device1]
    ha initLifecycleState 0 true
  exact ⟨h.1, rfl, h.2.1 rfl⟩

/-- C9: On the first start, the source never inspects the result of the
`calloc` at BlackHole.c line 4339: when allocation fails the call still
returns status 0 (success) with `gRingBuffer` left NULL, instead of
propagating an error as the specification requires.  Evaluation of the
embedded `ioStart` at the failing input. -/
theorem ioStart_allocFailure_returns_success :
    ioStart .device1 100 false initLifecycleState =
      (0, { initLifecycleState with
              device1Running := 1
              anchorHostTime := 100
              ringBufferAllocated := false }) := by
  norm_num [ioStart, initLifecycleState, UINT64_MAX]

/-- C6: Configuration change perform/abort.  With sample rate 44100 and a
pending request for 96000, the Perform phase of `SetSampleRate` installs
96000 and recomputes the ticks-per-frame to exactly
`theHostClockFrequency / 96000` (also refreshing the pitch-adjusted
value), while the Abort phase mutates nothing. -/
theorem configChange_perform_abort (st : ConfigState) (hostFreq : ℚ)
    (hreq : st.requestedSampleRate = 96000) (hprev : st.sampleRate = 44100) :
    performDeviceConfigurationChange .setSampleRate hostFreq st =
      (0, { st with
              sampleRate := 96000
              hostTicksPerFrame := hostFreq / 96000
              adjustedTicks :=
                adjustedTicksPerFrame (hostFreq / 96000) st.pitchAdjust }) ∧
    abortDeviceConfigurationChange .setSampleRate st = (0, st) := by
  refine ⟨?_, rfl⟩
  simp only [performDeviceConfigurationChange, hreq]
  rw [if_neg]
  norm_num [is_valid_sample_rate, kDevice_SampleRates]

/-- Witness for C6 at `hostFreq = 10^9`. -/
theorem configChange_perform_abort_witness :
    (⟨44100, 96000, 0, 0, 1 / 2, false⟩ : ConfigState).requestedSampleRate = 96000 ∧
    performDeviceConfigurationChange .setSampleRate 1000000000
        ⟨44100, 96000, 0, 0, 1 / 2, false⟩ =
      (0, { (⟨44100, 96000, 0, 0, 1 / 2, false⟩ : ConfigState) with
              sampleRate := 96000
              hostTicksPerFrame := (1000000000 : ℚ) / 96000
              adjustedTicks :=
                adjustedTicksPerFrame ((1000000000 : ℚ) / 96000) (1 / 2) }) ∧
    abortDeviceConfigurationChange .setSampleRate
        ⟨44100, 96000, 0, 0, 1 / 2, false⟩ =
      (0, ⟨44100, 96000, 0, 0, 1 / 2, false⟩) := by
  have h := configChange_perform_abort ⟨44100, 96000, 0, 0, 1 / 2, false⟩
    1000000000 rfl rfl
  exact ⟨rfl, h.1, h.2⟩

/-- Counterexample to C7 as stated: setting the clock-source selector to
the out-of-range index 5 (the enumeration has two items) is not rejected
with an error: the call succeeds (status 0), clamps the value to index 1,
stores it, and queues an enable-pitch-control configuration change. -/
theorem invalid_value_counterexample :
    setClockSourceValue 5 0 = (0, 1, some .enablePitchControl) ∧
    (0 : Int) ≠ kAudioHardwareIllegalOperationError := by
  constructor
  · rfl
  · norm_num [kAudioHardwareIllegalOperationError]

/-- C7 (amended): Invalid-value rejection.  A requested nominal sample
rate outside the whitelist is rejected synchronously with the
illegal-operation error code (`kAudioHardwareIllegalOperationError`, the
same code used for underflow/overflow, not a distinct unsupported-value
code), with no configuration-change request queued and the state
unchanged.  An out-of-range clock-source selector index, however, is not
rejected: it is clamped to the last valid item (index
`kClockSource_NumberItems - 1 = 1`) and then handled as a normal set,
storing the clamped value and queueing an enable-pitch-control request
whenever it differs from the current value. -/
theorem invalid_value_handling (r : ℚ) (st : ConfigState) (n cur : Nat)
    (hr : is_valid_sample_rate r = false) (hn : n ≥ kClockSource_NumberItems) :
    setNominalSampleRate r st =
      (kAudioHardwareIllegalOperationError, st, none) ∧
    setClockSourceValue n cur =
      (if cur ≠ kClockSource_NumberItems - 1 then
        (0, kClockSource_NumberItems - 1, some .enablePitchControl)
       else (0, cur, none)) := by
  constructor
  · simp [setNominalSampleRate, hr]
  · simp only [setClockSourceValue]
    rw [if_pos hn]
    norm_num [kClockSource_NumberItems]

/-- Witness for C7 (amended): rate 12345 is rejected with the
illegal-operation code and no queued request; selector index 5 from
current value 0 is clamped to 1 and queues an enable request. -/
theorem invalid_value_handling_witness :
    is_valid_sample_rate 12345 = false ∧
    setNominalSampleRate 12345 ⟨44100, 0, 0, 0, 1 / 2, false⟩ =
      (kAudioHardwareIllegalOperationError,
        ⟨44100, 0, 0, 0, 1 / 2, false⟩, none) ∧
    setClockSourceValue 5 0 = (0, 1, some .enablePitchControl) := by
  have hr : is_valid_sample_rate 12345 = false := by
    norm_num [is_valid_sample_rate, kDevice_SampleRates]
  have h := invalid_value_handling 12345 ⟨44100, 0, 0, 0, 1 / 2, false⟩ 5 0 hr
    (by norm_num [kClockSource_NumberItems])
  refine ⟨hr, h.1, ?_⟩
  rw [h.2]
  norm_num [kClockSource_NumberItems]

/-- C8: Pitch bounds.  For ticks-per-frame `t ≥ 0` and pitch `p ∈ [0,1]`,
the adjusted ticks-per-frame
`t - t/100 × 2×(p - 1/2)` lies within ±2% of `t`, and at `p = 1/2` it
equals `t` exactly.  (The actual deviation is at most ±1%, which is
within the claimed ±2% envelope.) -/
theorem pitch_bounds (t p : ℚ) (ht : 0 ≤ t) (h0 : 0 ≤ p) (h1 : p ≤ 1) :
    |adjustedTicksPerFrame t p - t| ≤ 2 / 100 * t ∧
    adjustedTicksPerFrame t (1 / 2) = t := by
  constructor
  · rw [abs_le]
    unfold adjustedTicksPerFrame
    constructor <;> nlinarith
  · unfold adjustedTicksPerFrame
    ring

/-- Witness for C8 at `t = 100`, `p = 1`. -/
theorem pitch_bounds_witness :
    ((0 : ℚ) ≤ 100) ∧ ((0 : ℚ) ≤ 1) ∧
    |adjustedTicksPerFrame 100 1 - 100| ≤ 2 / 100 * 100 ∧
    adjustedTicksPerFrame 100 (1 / 2) = 100 := by
  have h := pitch_bounds 100 1 (by norm_num) (by norm_num) (by norm_num)
  exact ⟨by norm_num, by norm_num, h.1, h.2⟩

/-- C10: The zero-time-stamp period and the ring-buffer wrap capacity are
distinct constants: every I/O cycle computes its offset modulo
`kRing_Buffer_Frame_Size = 65536 + kLatency_Frame_Size` frames, while
every `getZeroTimeStamp` call reports sample time in multiples of
`kDevice_RingBufferSize = 16384` frames — one quarter of the wrap modulus
(latency padding is 0 in this build), not equal to it. -/
theorem period_vs_capacity :
    kDevice_RingBufferSize = 16384 ∧
    kRing_Buffer_Frame_Size = 65536 + kLatency_Frame_Size ∧
    kDevice_RingBufferSize ≠ kRing_Buffer_Frame_Size ∧
    4 * kDevice_RingBufferSize = kRing_Buffer_Frame_Size ∧
    (∀ s : Nat, ringBufferFrameLocationStart s = s % kRing_Buffer_Frame_Size) ∧
    (∀ u : ClockState, ∀ t : Nat,
      (getZeroTimeStamp u t).2.1 =
        (((getZeroTimeStamp u t).1.numberTimeStamps *
          kDevice_RingBufferSize : Nat) : ℚ)) := by
  refine ⟨rfl, rfl, ?_, ?_, fun s => rfl, fun u t => rfl⟩
  · norm_num [kDevice_RingBufferSize, kRing_Buffer_Frame_Size, kLatency_Frame_Size]
  · norm_num [kDevice_RingBufferSize, kRing_Buffer_Frame_Size, kLatency_Frame_Size]

end BlackHole
